import Mathlib

/-!
Verification of the LIPG-Cloud record store and post-generation pipeline.

The development shallowly embeds the Python modules
`shared_utils/data_manager.py`, `shared_utils/templates_config.py` and
`shared_utils/post_generator.py` into Lean.  Persistence is modelled at the
value level: every `_save_json_file` in the source fully overwrites one JSON
file and every `_load_json_file` re-reads it, so each operation is embedded as
a pure function from the affected collections (Lean lists of records) to the
updated collections together with the returned value.  File writes are
modelled as always succeeding, and the Python standard-library JSON codec
(`json.dump` / `json.load`), which is external to this repository, is treated
as an exact inverse pair, so a file's content is modelled as the JSON value
it holds.  Wall-clock time is modelled by a natural-number parameter `now`
measured in days together with an abstract formatter `isofmt : Nat → String`
standing for `datetime.isoformat`, and an abstract parser
`parse : String → Option Nat` standing for `datetime.fromisoformat` (returning
`none` where the Python call would raise).  The external OpenAI completion
call is a function parameter `completion`; the embedding of `generate_ai_post`
additionally reports whether that external call was performed.

Python string primitives (`str.strip`, `str.lower`, `len`, slicing,
`str.startswith`, `str.replace`) are modelled by the explicit character-list
functions below so that all definitions evaluate inside the kernel.
-/

/-- Model of Python `str.lower`: lower-case every character. -/
def strLower (s : String) : String := (s.toList.map Char.toLower).asString

/-- Model of Python `str.strip`: drop whitespace from both ends. -/
def strTrim (s : String) : String :=
  (((s.toList.dropWhile Char.isWhitespace).reverse.dropWhile Char.isWhitespace).reverse).asString

/-- Model of Python `len` on strings: number of characters (code points). -/
def strLen (s : String) : Nat := s.toList.length

/-- Model of Python slicing `s[:n]`: first `n` characters. -/
def strTake (s : String) (n : Nat) : String := (s.toList.take n).asString

/-- Helper for `strStarts`: Boolean character-list prefix test. -/
def strStartsAux : List Char → List Char → Bool
  | [], _ => true
  | _ :: _, [] => false
  | a :: ps, b :: bs => a == b && strStartsAux ps bs

/-- Model of Python `str.startswith`. -/
def strStarts (s pre : String) : Bool := strStartsAux pre.toList s.toList

/-- Model of the source's `expiration_date_str.replace('Z', '+00:00')`
(the pattern is the single character `Z`, so the replacement is per-character). -/
def replaceZ (s : String) : String :=
  (s.toList.flatMap (fun c => if c = 'Z' then "+00:00".toList else [c])).asString

/-- JSON values as stored in the data files (the Python records are plain
`json` values: dicts, lists, strings, numbers, booleans, null). -/
inductive Json where
  | null : Json
  | bool (b : Bool) : Json
  | num (n : Int) : Json
  | str (s : String) : Json
  | arr (xs : List Json) : Json
  | obj (fields : List (String × Json)) : Json

/-- The JSON-file store: an association of file paths to the JSON value each
file holds; the head of the list is the most recent write. -/
abbrev FS := List (String × Json)

/-- Embedding of `_load_json_file` (data_manager.py lines 27-36): return the
file's JSON value; a missing file yields the empty list `[]`.  (The source
also degrades a corrupt file to `[]`; at the value level a stored file is
never corrupt.) -/
def load_json_file (fs : FS) (fp : String) : Json :=
  match fs.lookup fp with
  | some j => j
  | none => Json.arr []

/-- Embedding of `_save_json_file` (data_manager.py lines 38-46): fully
overwrite the file with the given data and report success. -/
def save_json_file (fs : FS) (fp : String) (data : Json) : Bool × FS :=
  (true, (fp, data) :: fs)

/-- A record of `auth.json` as created by `create_user`. -/
structure AuthUser where
  username : String
  password : String
  enabled : Bool
  email : String
  tier : String
  company_id : Option Nat
  role : String
  created_date : String
  last_login : Option String
deriving DecidableEq

/-- A record of `companies.json`.  `enabled` is optional because the source
reads it with `company.get('enabled', True)`. -/
structure Company where
  id : Nat
  name : String
  subscription_type : String
  start_date : String
  expiration_date : Option String
  created_date : String
  enabled : Option Bool
deriving DecidableEq

/-- A record of `posts.json`. -/
structure Post where
  id : Nat
  user_id : String
  date : String
  topic : String
  purpose : String
  audience : String
  message : String
  tone_intensity : String
  language_style : String
  post_length : String
  formatting : String
  cta : String
  post_goal : String
  generated_post : String
deriving DecidableEq

/-- The scanning loop of `authenticate_user` (data_manager.py lines 233-247):
find the first stored user whose stripped, lower-cased username matches the
(already stripped) input username, then check the enabled flag and compare
the password; report `User not found` when no username matches. -/
def authFind (uname pwd : String) : List AuthUser → Bool × String
  | [] => (false, "User not found")
  | u :: rest =>
    if strLower (strTrim u.username) = strLower uname then
      if u.enabled = false then (false, "User account is disabled")
      else if u.password = pwd then (true, "Authentication successful")
      else (false, "Incorrect password")
    else authFind uname pwd rest

/-- Embedding of `authenticate_user` (data_manager.py lines 214-250). -/
def authenticate_user (auth : List AuthUser) (username password : String) : Bool × String :=
  let uname := strTrim username
  let pwd := strTrim password
  if uname = "" ∨ pwd = "" then (false, "Username and password are required")
  else if auth.isEmpty then (false, "No users found in system. Please contact administrator.")
  else authFind uname pwd auth

/-- Embedding of `create_user` (data_manager.py lines 274-319): reject a
case-sensitively duplicated username, default an invalid tier to `Basic` and
an invalid role to `User`, verify a (truthy) `company_id` exists, then append
the new record.  `nowIso` stands for `datetime.now().isoformat()`. -/
def create_user (auth : List AuthUser) (companies : List Company)
    (username password : String) (enabled : Bool) (email tier : String)
    (company_id : Option Nat) (role : String) (nowIso : String) :
    (Bool × String) × List AuthUser :=
  if auth.any (fun u => u.username == username) then
    ((false, "Username already exists"), auth)
  else
    let tier := if tier = "Basic" ∨ tier = "Standard" ∨ tier = "Premium" then tier else "Basic"
    let role := if role = "Admin" ∨ role = "User" ∨ role = "Viewer" then role else "User"
    let companyMissing : Bool :=
      match company_id with
      | some cid => cid != 0 && !(companies.any (fun c => c.id == cid))
      | none => false
    if companyMissing then
      ((false, "Company with ID " ++ toString (company_id.getD 0) ++ " not found"), auth)
    else
      ((true, "User created successfully"),
        auth ++ [{ username := username, password := password, enabled := enabled,
                   email := email, tier := tier, company_id := company_id, role := role,
                   created_date := nowIso, last_login := none }])

/-- The scanning loop of `enable_disable_user`: update the enabled flag of the
first record whose username matches exactly; `none` when no record matches. -/
def setEnabledFirst (uname : String) (e : Bool) : List AuthUser → Option (List AuthUser)
  | [] => none
  | u :: rest =>
    if u.username = uname then some ({ u with enabled := e } :: rest)
    else (setEnabledFirst uname e rest).map (u :: ·)

/-- Embedding of `enable_disable_user` (data_manager.py lines 335-347). -/
def enable_disable_user (auth : List AuthUser) (username : String) (enabled : Bool) :
    (Bool × String) × List AuthUser :=
  match setEnabledFirst username enabled auth with
  | some auth' =>
    ((true, "User " ++ (if enabled then "enabled" else "disabled") ++ " successfully"), auth')
  | none => ((false, "User not found"), auth)

/-- Embedding of `delete_user` (data_manager.py lines 349-358): keep every
record whose username differs, then report success unconditionally. -/
def delete_user (auth : List AuthUser) (username : String) : (Bool × String) × List AuthUser :=
  ((true, "User deleted successfully"), auth.filter (fun u => u.username != username))

/-- Result of `create_company`: `(True, company_id)` or `(False, message)`. -/
inductive CreateCompanyResult where
  | ok (id : Nat) : CreateCompanyResult
  | err (msg : String) : CreateCompanyResult
deriving DecidableEq

/-- Embedding of `create_company` (data_manager.py lines 455-496): reject a
case-insensitively duplicated name, assign `id = len(companies) + 1`, default
missing (falsy) dates — the expiration default is computed from the raw
`subscription_type` before that type is normalised to `monthly` — and append
the record.  Time is in days: `isofmt now` stands for
`datetime.now().isoformat()` and `isofmt (now + d)` for
`(datetime.now() + timedelta(days=d)).isoformat()`. -/
def create_company (isofmt : Nat → String) (now : Nat) (companies : List Company)
    (name : String) (subscription_type : String)
    (start_date expiration_date : Option String) : CreateCompanyResult × List Company :=
  if companies.any (fun c => strLower c.name == strLower name) then
    (.err "Company name already exists", companies)
  else
    let cid := companies.length + 1
    let start :=
      match start_date with
      | none => isofmt now
      | some s => if s = "" then isofmt now else s
    let defaultExp :=
      if subscription_type = "monthly" then isofmt (now + 30) else isofmt (now + 365)
    let exp :=
      match expiration_date with
      | none => defaultExp
      | some s => if s = "" then defaultExp else s
    let stype :=
      if subscription_type = "monthly" ∨ subscription_type = "annual"
      then subscription_type else "monthly"
    (.ok cid,
      companies ++ [{ id := cid, name := name, subscription_type := stype,
                      start_date := start, expiration_date := some exp,
                      created_date := isofmt now, enabled := some true }])

/-- Embedding of `get_company` (data_manager.py lines 498-508): first record
with the given id. -/
def get_company (companies : List Company) (cid : Nat) : Option Company :=
  companies.find? (fun c => c.id == cid)

/-- Embedding of `delete_company` (data_manager.py lines 554-571): drop every
company record with the given id, null the `company_id` of every user that
references it, and report success unconditionally. -/
def delete_company (companies : List Company) (users : List AuthUser) (cid : Nat) :
    (Bool × String) × List Company × List AuthUser :=
  ((true, "Company deleted successfully"),
    companies.filter (fun c => c.id != cid),
    users.map (fun u => if u.company_id = some cid then { u with company_id := none } else u))

/-- Embedding of `delete_post` (data_manager.py lines 176-184): keep every
record whose id differs and return the (always succeeding) save result. -/
def delete_post (posts : List Post) (pid : Nat) : Bool × List Post :=
  (true, posts.filter (fun p => p.id != pid))

/-- Embedding of `is_subscription_active` (data_manager.py lines 590-605).
`parse` stands for `datetime.fromisoformat` (applied after the source's
`.replace('Z', '+00:00')`), `none` standing for a raised exception, which the
source's `except` turns into `False`. -/
def is_subscription_active (parse : String → Option Nat) (now : Nat)
    (companies : List Company) (cid : Nat) : Bool :=
  match get_company companies cid with
  | none => false
  | some c =>
    if c.enabled.getD true = false then false
    else
      match c.expiration_date with
      | none => false
      | some s =>
        if s = "" then false
        else
          match parse (replaceZ s) with
          | none => false
          | some t => decide (now < t)

/-- A persona template of `templates_config.py`. -/
structure Template where
  name : String
  description : String
  system_prompt : String
  formatting_style : String
deriving DecidableEq

/-- The `professional` entry of `POST_TEMPLATES` (templates_config.py lines 7-12),
also the fallback of `get_template`. -/
def professionalTemplate : Template :=
  { name := "Professional",
    description := "Standard professional post format",
    system_prompt := "You are a professional LinkedIn post writer. Create engaging, professional content that builds thought leadership and drives engagement.",
    formatting_style := "Use professional language with strategic use of emojis, bullet points, and clear call-to-actions." }

/-- Embedding of the `POST_TEMPLATES` dictionary (templates_config.py lines 6-62). -/
def POST_TEMPLATES : List (String × Template) :=
  [("professional", professionalTemplate),
   ("storytelling",
    { name := "Storytelling",
      description := "Personal story-driven posts",
      system_prompt := "You are a master storyteller on LinkedIn. Create compelling personal stories that connect with your audience and drive engagement.",
      formatting_style := "Use storytelling techniques with emotional hooks, personal anecdotes, and relatable experiences." }),
   ("industry_insights",
    { name := "Industry Insights",
      description := "Technical and industry-specific content",
      system_prompt := "You are an industry expert writing LinkedIn posts. Share valuable insights, trends, and technical knowledge that positions you as a thought leader.",
      formatting_style := "Use technical language appropriately, include data points, and provide actionable insights." }),
   ("motivational",
    { name := "Motivational",
      description := "Inspirational and motivational content",
      system_prompt := "You are a motivational speaker on LinkedIn. Create inspiring content that motivates and energizes your audience.",
      formatting_style := "Use uplifting language, powerful quotes, and energizing calls-to-action." }),
   ("educational",
    { name := "Educational",
      description := "How-to and educational content",
      system_prompt := "You are an educator on LinkedIn. Create informative, step-by-step content that teaches valuable skills and knowledge.",
      formatting_style := "Use clear structure, numbered steps, and practical examples." }),
   ("news_commentary",
    { name := "News Commentary",
      description := "Current events and news commentary",
      system_prompt := "You are a LinkedIn commentator on current events. Provide thoughtful analysis and professional commentary on relevant news and trends.",
      formatting_style := "Use balanced perspective, cite sources, and encourage discussion." }),
   ("product_showcase",
    { name := "Product Showcase",
      description := "Product and service promotion",
      system_prompt := "You are a marketing professional on LinkedIn. Create compelling content that showcases products or services without being overly salesy.",
      formatting_style := "Use benefit-focused language, social proof, and clear value propositions." }),
   ("networking",
    { name := "Networking",
      description := "Connection and relationship building",
      system_prompt := "You are a networking expert on LinkedIn. Create content that builds relationships and encourages professional connections.",
      formatting_style := "Use conversational tone, ask engaging questions, and encourage interaction." })]

/-- Embedding of `get_template` (templates_config.py lines 101-103):
`POST_TEMPLATES.get(template_name, POST_TEMPLATES["professional"])`. -/
def get_template (template_name : String) : Template :=
  (POST_TEMPLATES.lookup template_name).getD professionalTemplate

/-- The sanitisation step of `validate_input` (post_generator.py line 53):
strip whitespace, then remove the characters `<`, `>`, `"`, `'`. -/
def sanitize (text : String) : String :=
  ((strTrim text).toList.filter
    (fun c => !(c == '<' || c == '>' || c == '"' || c == '\''))).asString

/-- Embedding of `validate_input` (post_generator.py lines 47-58): an empty or
whitespace-only value is rejected; otherwise the value is sanitised and the
length cap is applied to the sanitised text.  `Except.error` stands for a
raised `ValueError`. -/
def validate_input (text field_name : String) (max_length : Nat) : Except String String :=
  if strTrim text = "" then .error (field_name ++ " cannot be empty")
  else
    let t := sanitize text
    if max_length < strLen t then
      .error (field_name ++ " cannot exceed " ++ toString max_length ++ " characters")
    else .ok t

/-- Embedding of `validate_topic` (post_generator.py lines 60-62). -/
def validate_topic (topic : String) : Except String String :=
  validate_input topic "Topic" 200

/-- Embedding of `validate_purpose` (post_generator.py lines 64-66). -/
def validate_purpose (purpose : String) : Except String String :=
  validate_input purpose "Purpose" 300

/-- Embedding of `validate_message` (post_generator.py lines 68-70). -/
def validate_message (message : String) : Except String String :=
  validate_input message "Message" 1000

/-- Embedding of `validate_cta` (post_generator.py lines 72-74). -/
def validate_cta (cta : String) : Except String String :=
  validate_input cta "Call-to-Action" 200

/-- The `template_styles` table of `generate_visual_prompt`
(post_generator.py lines 80-89). -/
def template_styles : List (String × String) :=
  [("professional", "clean, corporate, business-focused, professional lighting, modern office setting"),
   ("storytelling", "warm, personal, authentic, natural lighting, human-centered"),
   ("industry_insights", "technical, data-driven, charts and graphs, professional, analytical"),
   ("motivational", "inspiring, uplifting, bright colors, dynamic, energetic"),
   ("educational", "clear, instructional, step-by-step, informative, clean design"),
   ("news_commentary", "current, relevant, news-focused, professional, timely"),
   ("product_showcase", "product-focused, clean background, professional, highlight features"),
   ("networking", "people-focused, collaborative, professional, connection-oriented")]

/-- `template_styles.get(template_type, "professional, clean, modern")`. -/
def template_styles_get (k : String) : String :=
  (template_styles.lookup k).getD "professional, clean, modern"

/-- The `image_styles` table of `generate_visual_prompt`
(post_generator.py lines 92-101). -/
def image_styles : List (String × String) :=
  [("photo_realistic", "photorealistic, high-resolution photography, realistic lighting, professional photography"),
   ("illustration", "illustration, hand-drawn style, artistic, creative illustration"),
   ("minimalist", "minimalist design, clean lines, simple shapes, white space, modern minimalist"),
   ("infographic", "infographic style, data visualization, charts, graphs, informational graphics"),
   ("abstract", "abstract art, geometric shapes, artistic, creative, non-representational"),
   ("vintage", "vintage style, retro design, classic, timeless, nostalgic"),
   ("modern_flat", "flat design, modern, clean, simple, contemporary flat design"),
   ("3d_render", "3D rendered, three-dimensional, computer generated, modern 3D graphics")]

/-- `image_styles.get(visual_style, "photorealistic, high-resolution photography")`. -/
def image_styles_get (k : String) : String :=
  (image_styles.lookup k).getD "photorealistic, high-resolution photography"

/-- The `color_palettes` table of `generate_visual_prompt`
(post_generator.py lines 104-114). -/
def color_palettes : List (String × String) :=
  [("Educate", "blue and white, professional, clean"),
   ("Engage", "vibrant colors, energetic, eye-catching"),
   ("Promote", "brand colors, professional, attention-grabbing"),
   ("Inspire", "warm tones, uplifting, motivational"),
   ("Inform", "neutral tones, clear, informative"),
   ("Motivate", "bold colors, dynamic, energetic"),
   ("Entertain", "fun colors, playful, engaging"),
   ("Network", "professional blues and grays, trustworthy"),
   ("Advocate", "strong colors, impactful, meaningful")]

/-- `color_palettes.get(post_goal, "professional, clean")`. -/
def color_palettes_get (k : String) : String :=
  (color_palettes.lookup k).getD "professional, clean"

/-- Embedding of `generate_visual_prompt` (post_generator.py lines 76-145):
look up the three style tables (with their fixed defaults) and build the
image-prompt text; the trailing `.strip()` of the source is `strTrim`. -/
def generate_visual_prompt (topic purpose audience post_goal template_type visual_style : String) :
    String :=
  let template_style := template_styles_get template_type
  let image_style := image_styles_get visual_style
  let color_palette := color_palettes_get post_goal
  strTrim
    ("\n        Create a LinkedIn post image for: " ++ topic ++
     "\n        \n        Purpose: " ++ purpose ++
     "\n        Audience: " ++ audience ++
     "\n        Goal: " ++ post_goal ++
     "\n        \n        Template Style: " ++ template_style ++
     "\n        Image Type: " ++ image_style ++
     "\n        Color Palette: " ++ color_palette ++
     "\n        \n        Image Requirements:" ++
     "\n        - LinkedIn-optimized (1200x627px recommended)" ++
     "\n        - Professional quality" ++
     "\n        - Text overlay friendly" ++
     "\n        - High contrast for readability" ++
     "\n        - Brand-appropriate" ++
     "\n        \n        Final Style: " ++ image_style ++ " with " ++ template_style ++
     " approach\n        ")

/-- The `length_mappings` lookup of `generate_ai_post`
(post_generator.py lines 170-178). -/
def length_mappings_get (post_length : String) : String :=
  ([("Very Short", "100-300 characters (1-2 sentences)"),
    ("Short", "300-800 characters (2-4 sentences)"),
    ("Medium", "800-1,500 characters (4-8 sentences)"),
    ("Long", "1,500-2,500 characters (8-15 sentences)"),
    ("Very Long", "2,500-3,000 characters (15+ sentences)")].lookup post_length).getD
    "800-1,500 characters"

/-- The `tone_guidance` lookup of `generate_ai_post`
(post_generator.py lines 184-190). -/
def tone_guidance_get (tone_intensity : String) : String :=
  ([("Very Light", "subtle, gentle, understated"),
    ("Light", "pleasant, friendly, approachable"),
    ("Moderate", "balanced, professional, engaging"),
    ("Strong", "confident, assertive, impactful"),
    ("Very Strong", "powerful, compelling, commanding")].lookup tone_intensity).getD
    "professional and engaging"

/-- The `formatting_instructions` lookup of `generate_ai_post`
(post_generator.py lines 192-198). -/
def formatting_instructions_get (formatting : String) : String :=
  ([("Bullet Points", "Use bullet points (•) for key takeaways. Make each point concise and impactful."),
    ("Numbered List", "Use numbered steps or points (1., 2., 3.). Create a logical sequence."),
    ("Paragraphs", "Use flowing paragraph format with smooth transitions between ideas."),
    ("Mixed Format", "Combine bullets, paragraphs, and lists strategically for maximum engagement."),
    ("Question & Answer", "Use Q&A format with engaging questions that spark discussion.")].lookup
    formatting).getD "Use a clear, structured format."

/-- The generation-prompt f-string of `generate_ai_post`
(post_generator.py lines 200-233). -/
def build_prompt (template : Template)
    (topic purpose audience message tone_guidance character_guidance language_style
     formatting_instructions post_goal cta_instruction : String) : String :=
  "Create a compelling " ++ strLower template.name ++ " LinkedIn post about: " ++ topic ++
  "\n\nCONTEXT:\n- Purpose: " ++ purpose ++
  "\n- Target Audience: " ++ audience ++
  "\n- Key Message: " ++ message ++
  "\n- Post Goal: " ++ post_goal ++
  "\n\nSTYLE REQUIREMENTS:\n- Tone: " ++ tone_guidance ++ " with a " ++ strLower language_style ++
  " language style\n- Length: " ++ character_guidance ++
  " (LinkedIn maximum: 3,000 characters)\n- Format: " ++ formatting_instructions ++
  "\n\nCONTENT GUIDELINES:\n" ++ template.formatting_style ++
  "\n\n- Start with a hook that grabs attention (question, bold statement, or relatable scenario)" ++
  "\n- Develop the main message clearly and concisely" ++
  "\n- Use LinkedIn-optimized formatting:" ++
  "\n  • Strategic CAPITALIZATION for emphasis on key points" ++
  "\n  • Relevant emojis (2-4 max) to enhance readability and engagement" ++
  "\n  • Clear line breaks between sections for easy scanning" ++
  "\n  • Short paragraphs (2-3 sentences max) for mobile readability" ++
  "\n- " ++ cta_instruction ++
  "\n\nQUALITY STANDARDS:\n- Professional yet approachable" ++
  "\n- Actionable insights or value" ++
  "\n- Authentic voice that resonates with " ++ strLower audience ++
  "\n- Engaging and shareable content" ++
  "\n- No hashtags unless specifically requested" ++
  "\n\nCRITICAL: The post must be exactly within " ++ character_guidance ++
  ". Do not exceed 3,000 characters total.\n"

/-- The user-facing validation-error string of `generate_ai_post`
(post_generator.py lines 309-316). -/
def validation_error_msg (e : String) : String :=
  "⚠️ **Input Validation Error**\n\n" ++ e ++ "\n\nPlease check your input and try again."

/-- Embedding of `generate_ai_post` (post_generator.py lines 147-328).
`completion` stands for the external OpenAI chat-completion call (system
prompt and user prompt to completion text); the Boolean of the result records
whether that external call was performed.  A validation failure is caught by
the `except ValueError` arm and returned as a warning-marker string with an
empty visual prompt and no external call. -/
def generate_ai_post (completion : String → String → String)
    (topic purpose audience message tone_intensity language_style post_length
     formatting cta post_goal template_type visual_style : String) :
    (String × String) × Bool :=
  match validate_topic topic with
  | .error e => ((validation_error_msg e, ""), false)
  | .ok topic =>
  match validate_purpose purpose with
  | .error e => ((validation_error_msg e, ""), false)
  | .ok purpose =>
  match validate_message message with
  | .error e => ((validation_error_msg e, ""), false)
  | .ok message =>
  match (if cta = "" then Except.ok cta else validate_cta cta) with
  | .error e => ((validation_error_msg e, ""), false)
  | .ok cta =>
    let template := get_template template_type
    let character_guidance := length_mappings_get post_length
    let cta_instruction :=
      if cta = "" then
        "End with an engaging call-to-action that encourages interaction (questions, comments, or shares)."
      else "Include a clear call-to-action: " ++ cta
    let tone_guidance := tone_guidance_get tone_intensity
    let formatting_instructions := formatting_instructions_get formatting
    let prompt := build_prompt template topic purpose audience message tone_guidance
      character_guidance language_style formatting_instructions post_goal cta_instruction
    let post_content := strTrim (completion template.system_prompt prompt)
    let post_content :=
      if 3000 < strLen post_content then strTake post_content 2997 ++ "..." else post_content
    let visual_prompt :=
      generate_visual_prompt topic purpose audience post_goal template_type visual_style
    ((post_content, visual_prompt), true)

/-- A concrete date formatter used to instantiate the parameterised theorems. -/
def isofmt0 : Nat → String := fun n => (List.replicate n 'd').asString

/-- A concrete external-completion stub used to instantiate theorems. -/
def completion0 : String → String → String := fun _ _ => "This is a generated post."

/-- Sample company record (id 1). -/
def acmeCo : Company :=
  { id := 1, name := "Acme", subscription_type := "monthly", start_date := "s",
    expiration_date := some "e", created_date := "c", enabled := some true }

/-- Sample company record (id 2). -/
def betaCo : Company :=
  { id := 2, name := "Beta", subscription_type := "annual", start_date := "s",
    expiration_date := some "e", created_date := "c", enabled := some true }

/-- Sample user record. -/
def bobUser : AuthUser :=
  { username := "bob", password := "secret", enabled := true, email := "",
    tier := "Basic", company_id := none, role := "User", created_date := "c",
    last_login := none }

/-- Sample user record referencing company 1. -/
def carolUser : AuthUser :=
  { username := "carol", password := "pw", enabled := true, email := "",
    tier := "Basic", company_id := some 1, role := "User", created_date := "c",
    last_login := none }

/-- Sample post record with id 1. -/
def post1 : Post :=
  { id := 1, user_id := "bob", date := "2025-01-01", topic := "t1", purpose := "p",
    audience := "a", message := "m", tone_intensity := "Moderate",
    language_style := "Casual", post_length := "Short", formatting := "Paragraphs",
    cta := "", post_goal := "Educate", generated_post := "g1" }

/-- A second sample post sharing id 1 with `post1`. -/
def post2 : Post :=
  { post1 with topic := "t2", generated_post := "g2" }

/-- A 250-character topic (all `a`) whose sanitised form still exceeds the cap. -/
def topic250A : String := (List.replicate 250 'a').asString

/-- A 250-character topic of which 60 characters are `<`: sanitisation removes
them, leaving 190 characters, under the 200 cap. -/
def topicCex : String := (List.replicate 190 'a' ++ List.replicate 60 '<').asString

/-- The record appended by `create_user` for username `u`, password `p`,
creation date `nowIso`, default tier/role/company, and enabled flag `e`. -/
def mkNewUser (u p nowIso : String) (e : Bool) : AuthUser :=
  { username := u, password := p, enabled := e, email := "", tier := "Basic",
    company_id := none, role := "User", created_date := nowIso, last_login := none }

theorem filterIdem {α : Type} (p : α → Bool) (l : List α) :
    (l.filter p).filter p = l.filter p := by
  induction l with
  | nil => rfl
  | cons a l ih => cases hp : p a <;> simp [List.filter_cons, hp, ih]

theorem filterAll {α : Type} (p : α → Bool) (l : List α)
    (h : ∀ a ∈ l, p a = true) : l.filter p = l := by
  induction l with
  | nil => rfl
  | cons a l ih =>
    simp [List.filter_cons, h a (List.mem_cons_self a l),
      ih (fun b hb => h b (List.mem_cons_of_mem a hb))]

theorem mapFixed {α : Type} (f : α → α) (l : List α)
    (h : ∀ a ∈ l, f a = a) : l.map f = l := by
  induction l with
  | nil => rfl
  | cons a l ih =>
    simp [h a (List.mem_cons_self a l),
      ih (fun b hb => h b (List.mem_cons_of_mem a hb))]

theorem lookupNone {α : Type} (l : List (String × α)) (k : String)
    (h : k ∉ l.map Prod.fst) : l.lookup k = none := by
  induction l with
  | nil => rfl
  | cons p l ih =>
    obtain ⟨a, b⟩ := p
    simp only [List.map_cons, List.mem_cons, not_or] at h
    simp [List.lookup, beq_eq_false_iff_ne.mpr h.1, ih h.2]

/-- C6: saving a record list to a collection file and then loading that
collection returns exactly the saved value (order-preserving, the backing
file being fully overwritten), and the save reports success. -/
theorem save_load_roundtrip (fs : FS) (fp : String) (x : Json) :
    (save_json_file fs fp x).1 = true ∧
    load_json_file (save_json_file fs fp x).2 fp = x := by
  refine ⟨rfl, ?_⟩
  simp [load_json_file, save_json_file, List.lookup]

/-- C10: `delete_user` always reports success with message
`User deleted successfully` — even when no user with the given username
exists, in which case the collection is unchanged; it never returns a
not-found result. -/
theorem delete_user_always_success (auth : List AuthUser) (username : String) :
    (delete_user auth username).1 = (true, "User deleted successfully") ∧
    ((∀ u ∈ auth, u.username ≠ username) → (delete_user auth username).2 = auth) := by
  refine ⟨rfl, fun h => ?_⟩
  exact filterAll _ _ (fun u hu => by simpa [bne_iff_ne] using h u hu)

/-- Witness for C10 at a concrete input. -/
theorem delete_user_always_success_witness :
    (delete_user [bobUser] "ghost").1 = (true, "User deleted successfully") ∧
    (delete_user [bobUser] "ghost").2 = [bobUser] := by
  have h := delete_user_always_success [bobUser] "ghost"
  exact ⟨h.1, h.2 (by decide)⟩

/-- C3 (amended): `delete_post` removes every record whose id matches (not
only the first), is a no-op when no record matches, and always returns the
(successful) save result — there is no not-found signal. -/
theorem delete_post_removes_all_matching (posts : List Post) (pid : Nat) :
    (delete_post posts pid).1 = true ∧
    (∀ p ∈ (delete_post posts pid).2, p.id ≠ pid) ∧
    (∀ p ∈ posts, p.id ≠ pid → p ∈ (delete_post posts pid).2) ∧
    ((∀ p ∈ posts, p.id ≠ pid) → (delete_post posts pid).2 = posts) := by
  refine ⟨rfl, ?_, ?_, ?_⟩
  · intro p hp
    simp only [delete_post, List.mem_filter] at hp
    simpa [bne_iff_ne] using hp.2
  · intro p hp h
    simp only [delete_post, List.mem_filter]
    exact ⟨hp, by simpa [bne_iff_ne] using h⟩
  · intro h
    exact filterAll _ _ (fun p hp => by simpa [bne_iff_ne] using h p hp)

/-- Witness for C3 at a concrete input: deleting a missing id is a no-op. -/
theorem delete_post_removes_all_matching_witness :
    (delete_post [post1] 99).1 = true ∧ (delete_post [post1] 99).2 = [post1] := by
  have h := delete_post_removes_all_matching [post1] 99
  exact ⟨h.1, h.2.2.2 (by decide)⟩

/-- C3 counterexample: `post1` and `post2` share id 1; `delete_post 1`
removes both records, not only the first, so the collection is left empty
instead of `[post2]` as the claim requires. -/
theorem delete_post_cex :
    post2.id = 1 ∧ (delete_post [post1, post2] 1).2 = [] := by decide

/-- C1 (amended): `create_company` assigns the new company the id
`len(existing) + 1` (not `max(existing ids) + 1`); consequently ids of
deleted companies can be reused by later creations. -/
theorem create_company_count_id (isofmt : Nat → String) (now : Nat)
    (cs : List Company) (name stype : String) (sd ed : Option String)
    (h : ∀ c ∈ cs, strLower c.name ≠ strLower name) :
    (create_company isofmt now cs name stype sd ed).1
      = CreateCompanyResult.ok (cs.length + 1) ∧
    (create_company isofmt now cs name stype sd ed).2.map Company.id
      = cs.map Company.id ++ [cs.length + 1] := by
  have hany : cs.any (fun c => strLower c.name == strLower name) = false := by
    rw [List.any_eq_false]
    intro c hc
    simpa using h c hc
  constructor <;> simp [create_company, hany]

/-- Witness for C1 at a concrete input. -/
theorem create_company_count_id_witness :
    (create_company isofmt0 0 [acmeCo] "Gamma" "monthly" none none).1
      = CreateCompanyResult.ok 2 := by
  exact (create_company_count_id isofmt0 0 [acmeCo] "Gamma" "monthly" none none
    (by decide)).1

/-- C1 counterexample: with companies Acme (id 1) and Beta (id 2), deleting
Beta and creating a new company gives the new company id 2 — the id of the
deleted Beta is reused, contradicting the claim that ids are never reused
(and the scheme is `count + 1`, not `max + 1`). -/
theorem create_company_id_reuse_cex :
    betaCo.id = 2 ∧
    (delete_company [acmeCo, betaCo] [] 2).2.1 = [acmeCo] ∧
    (create_company isofmt0 0 (delete_company [acmeCo, betaCo] [] 2).2.1
        "Gamma" "monthly" none none).1 = CreateCompanyResult.ok 2 := by decide

/-- C9: a `create_company` call with a subscription type outside
`monthly`/`annual` and no expiration date stores the type `monthly` but the
365-day (annual) expiration window, because the default expiration is
computed from the raw type before it is normalised. -/
theorem create_company_invalid_type_annual_window (isofmt : Nat → String) (now : Nat)
    (cs : List Company) (name stype : String)
    (h1 : stype ≠ "monthly") (h2 : stype ≠ "annual")
    (h : ∀ c ∈ cs, strLower c.name ≠ strLower name) :
    (create_company isofmt now cs name stype none none).1
      = CreateCompanyResult.ok (cs.length + 1) ∧
    (create_company isofmt now cs name stype none none).2
      = cs ++ [{ id := cs.length + 1, name := name, subscription_type := "monthly",
                 start_date := isofmt now, expiration_date := some (isofmt (now + 365)),
                 created_date := isofmt now, enabled := some true }] := by
  have hany : cs.any (fun c => strLower c.name == strLower name) = false := by
    rw [List.any_eq_false]
    intro c hc
    simpa using h c hc
  constructor <;> simp [create_company, hany, h1, h2]

/-- Witness for C9 at a concrete input: subscription type `weekly`. -/
theorem create_company_invalid_type_annual_window_witness :
    (create_company isofmt0 0 [] "Acme" "weekly" none none).2
      = [{ id := 1, name := "Acme", subscription_type := "monthly",
           start_date := isofmt0 0, expiration_date := some (isofmt0 365),
           created_date := isofmt0 0, enabled := some true }] := by
  exact (create_company_invalid_type_annual_window isofmt0 0 [] "Acme" "weekly"
    (by decide) (by decide) (by simp)).2

/-- C2 (amended): deleting a company sets `company_id` to `None` on every
user that referenced it (other users are untouched), and a second delete of
the same id leaves both collections unchanged from the state after the first
delete — but the second call again reports success
(`Company deleted successfully`): `delete_company` has no not-found result. -/
theorem delete_company_cascade_idempotent (cs : List Company) (users : List AuthUser)
    (cid : Nat) :
    (delete_company cs users cid).1 = (true, "Company deleted successfully") ∧
    (∀ u ∈ (delete_company cs users cid).2.2, u.company_id ≠ some cid) ∧
    (∀ u ∈ users, u.company_id = some cid →
      { u with company_id := none } ∈ (delete_company cs users cid).2.2) ∧
    (∀ u ∈ users, u.company_id ≠ some cid → u ∈ (delete_company cs users cid).2.2) ∧
    delete_company (delete_company cs users cid).2.1 (delete_company cs users cid).2.2 cid
      = ((true, "Company deleted successfully"),
         (delete_company cs users cid).2.1, (delete_company cs users cid).2.2) := by
  have hnone : ∀ u ∈ (delete_company cs users cid).2.2, u.company_id ≠ some cid := by
    intro u hu
    simp only [delete_company, List.mem_map] at hu
    obtain ⟨v, _, rfl⟩ := hu
    by_cases h : v.company_id = some cid
    · simp [h]
    · simp [h]
  refine ⟨rfl, hnone, ?_, ?_, ?_⟩
  · intro u hu h
    simp only [delete_company, List.mem_map]
    exact ⟨u, hu, by simp [h]⟩
  · intro u hu h
    simp only [delete_company, List.mem_map]
    exact ⟨u, hu, by simp [h]⟩
  · simp only [delete_company]
    refine congrArg _ ?_
    refine congrArg₂ _ (filterIdem _ _) ?_
    exact mapFixed _ _ (fun u hu => by
      simp [hnone u (by simpa [delete_company] using hu)])

/-- Witness for C2 at a concrete input: Carol references company 1; after the
delete her `company_id` is `None`, and a second delete changes nothing. -/
theorem delete_company_cascade_idempotent_witness :
    ({ carolUser with company_id := none } ∈ (delete_company [acmeCo] [carolUser] 1).2.2) ∧
    delete_company (delete_company [acmeCo] [carolUser] 1).2.1
        (delete_company [acmeCo] [carolUser] 1).2.2 1
      = ((true, "Company deleted successfully"),
         (delete_company [acmeCo] [carolUser] 1).2.1,
         (delete_company [acmeCo] [carolUser] 1).2.2) := by
  have h := delete_company_cascade_idempotent [acmeCo] [carolUser] 1
  exact ⟨h.2.2.1 carolUser (by decide) (by decide), h.2.2.2.2⟩

/-- C2 counterexample: deleting company 1 twice — the second call reports
success (`True` with message `Company deleted successfully`), not the
`not found` result the claim requires. -/
theorem delete_company_second_success_cex :
    (delete_company (delete_company [acmeCo] [carolUser] 1).2.1
        (delete_company [acmeCo] [carolUser] 1).2.2 1).1
      = (true, "Company deleted successfully") := by decide

/-- C5: `is_subscription_active` is true exactly when the company exists, its
enabled flag (read with default true) is set, and it has a nonempty
expiration date that parses to a time strictly after `now`; in every other
case — company missing, disabled, missing/empty/unparseable expiration date,
or `now ≥ expiration` — it is false. -/
theorem is_subscription_active_iff (parse : String → Option Nat) (now : Nat)
    (cs : List Company) (cid : Nat) :
    is_subscription_active parse now cs cid = true ↔
      ∃ c, get_company cs cid = some c ∧ c.enabled.getD true = true ∧
        ∃ s, c.expiration_date = some s ∧ s ≠ "" ∧
          ∃ t, parse (replaceZ s) = some t ∧ now < t := by
  unfold is_subscription_active
  cases hc : get_company cs cid with
  | none => simp
  | some c =>
    simp only [Option.some.injEq]
    by_cases he : c.enabled.getD true = false
    · simp [he]
    · have he' : c.enabled.getD true = true := by
        cases h : c.enabled.getD true
        · exact absurd h he
        · rfl
      cases hs : c.expiration_date with
      | none => simp [he, hs]
      | some s =>
        by_cases hemp : s = ""
        · simp [he, hs, hemp]
        · cases hp : parse (replaceZ s) with
          | none => simp [he, hs, hemp, hp]
          | some t => simp [he, he', hs, hemp, hp]

/-- C8: the prompt builder never fails — an unrecognised template key falls
back to the default `professional` persona, unknown visual-style and goal
keys fall back to their fixed default entries, and the built visual prompt is
deterministic: two calls with identical inputs produce identical output. -/
theorem prompt_builder_fallbacks_deterministic :
    (∀ k, k ∉ POST_TEMPLATES.map Prod.fst → get_template k = professionalTemplate) ∧
    (∀ k, k ∉ template_styles.map Prod.fst →
      template_styles_get k = "professional, clean, modern") ∧
    (∀ k, k ∉ image_styles.map Prod.fst →
      image_styles_get k = "photorealistic, high-resolution photography") ∧
    (∀ k, k ∉ color_palettes.map Prod.fst → color_palettes_get k = "professional, clean") ∧
    (∀ t p a g tt vs, generate_visual_prompt t p a g tt vs
      = generate_visual_prompt t p a g tt vs) := by
  refine ⟨?_, ?_, ?_, ?_, fun _ _ _ _ _ _ => rfl⟩
  · intro k h
    simp [get_template, lookupNone _ _ h]
  · intro k h
    simp [template_styles_get, lookupNone _ _ h]
  · intro k h
    simp [image_styles_get, lookupNone _ _ h]
  · intro k h
    simp [color_palettes_get, lookupNone _ _ h]

/-- Witness for C8 at the concrete unknown key `mystery`. -/
theorem prompt_builder_fallbacks_deterministic_witness :
    get_template "mystery" = professionalTemplate ∧
    template_styles_get "mystery" = "professional, clean, modern" ∧
    image_styles_get "mystery" = "photorealistic, high-resolution photography" ∧
    color_palettes_get "mystery" = "professional, clean" := by
  have h := prompt_builder_fallbacks_deterministic
  exact ⟨h.1 "mystery" (by decide), h.2.1 "mystery" (by decide),
    h.2.2.1 "mystery" (by decide), h.2.2.2.1 "mystery" (by decide)⟩

theorem isEmptyAppendSingleton {α : Type} (l : List α) (x : α) :
    (l ++ [x]).isEmpty = false := by
  cases l <;> rfl

theorem authFind_append (uname pwd : String) (l1 l2 : List AuthUser)
    (h : ∀ v ∈ l1, strLower (strTrim v.username) ≠ strLower uname) :
    authFind uname pwd (l1 ++ l2) = authFind uname pwd l2 := by
  induction l1 with
  | nil => rfl
  | cons v l ih =>
    rw [List.cons_append]
    simp only [authFind]
    rw [if_neg (h v (List.mem_cons_self v l))]
    exact ih (fun w hw => h w (List.mem_cons_of_mem v hw))

theorem setEnabledFirst_append (uname : String) (e : Bool) (l : List AuthUser)
    (w : AuthUser) (h : ∀ v ∈ l, v.username ≠ uname) (hw : w.username = uname) :
    setEnabledFirst uname e (l ++ [w]) = some (l ++ [{ w with enabled := e }]) := by
  induction l with
  | nil =>
    simp only [List.nil_append, setEnabledFirst]
    rw [if_pos hw]
  | cons v l ih =>
    rw [List.cons_append]
    simp only [setEnabledFirst]
    rw [if_neg (h v (List.mem_cons_self v l))]
    rw [ih (fun x hx => h x (List.mem_cons_of_mem v hx))]
    rfl

theorem strTrim_ne_of_sanitize_long (text : String) (h : 200 < strLen (sanitize text)) :
    ¬(strTrim text = "") := by
  intro h0
  rw [sanitize, h0] at h
  simp [strLen] at h

/-- C4 (amended): for a trimmed, nonempty `(username, password)` pair whose
username matches no stored user case-insensitively, `create_user` succeeds
and a subsequent `authenticate_user` with the same pair succeeds for any
letter-casing (any trim-equivalent, case-insensitive variant) of the
username; with a wrong (trimmed, nonempty) password it fails with
`Incorrect password`; and after `enable_disable_user (username, False)` it
fails with `User account is disabled` regardless of the password supplied. -/
theorem create_auth_flow (auth : List AuthUser) (companies : List Company)
    (u p nowIso : String)
    (hu : strTrim u = u) (_hu0 : u ≠ "")
    (hp : strTrim p = p) (hp0 : p ≠ "")
    (hnodup : ∀ v ∈ auth, strLower (strTrim v.username) ≠ strLower u) :
    (create_user auth companies u p true "" "Basic" none "User" nowIso).1
      = (true, "User created successfully") ∧
    (∀ u', strTrim u' ≠ "" → strLower (strTrim u') = strLower u →
      authenticate_user (create_user auth companies u p true "" "Basic" none "User" nowIso).2
          u' p = (true, "Authentication successful") ∧
      (∀ p', strTrim p' ≠ "" → strTrim p' ≠ p →
        authenticate_user (create_user auth companies u p true "" "Basic" none "User" nowIso).2
            u' p' = (false, "Incorrect password")) ∧
      (∀ p'', strTrim p'' ≠ "" →
        authenticate_user
            (enable_disable_user
              (create_user auth companies u p true "" "Basic" none "User" nowIso).2 u false).2
            u' p'' = (false, "User account is disabled"))) := by
  have husername : ∀ v ∈ auth, v.username ≠ u := by
    intro v hv heq
    exact hnodup v hv (by rw [heq, hu])
  have hanyfalse : auth.any (fun v => v.username == u) = false := by
    rw [List.any_eq_false]
    intro v hv
    simpa using husername v hv
  have hcreate : create_user auth companies u p true "" "Basic" none "User" nowIso
      = ((true, "User created successfully"), auth ++ [mkNewUser u p nowIso true]) := by
    simp [create_user, mkNewUser, hanyfalse]
  have hcreate2 : (create_user auth companies u p true "" "Basic" none "User" nowIso).2
      = auth ++ [mkNewUser u p nowIso true] := by
    rw [hcreate]
  refine ⟨by rw [hcreate], ?_⟩
  intro u' hu'0 hu'eq
  have hskipcond : ∀ v ∈ auth, strLower (strTrim v.username) ≠ strLower (strTrim u') := by
    intro v hv
    rw [hu'eq]
    exact hnodup v hv
  have hcond : strLower (strTrim (mkNewUser u p nowIso true).username)
      = strLower (strTrim u') := by
    show strLower (strTrim u) = strLower (strTrim u')
    rw [hu, hu'eq]
  have hmain : ∀ pw, strTrim pw ≠ "" →
      authenticate_user (auth ++ [mkNewUser u p nowIso true]) u' pw
        = (if p = strTrim pw then (true, "Authentication successful")
           else (false, "Incorrect password")) := by
    intro pw hpw
    simp only [authenticate_user]
    rw [if_neg (not_or.mpr ⟨hu'0, hpw⟩)]
    rw [isEmptyAppendSingleton]
    rw [if_neg Bool.false_ne_true]
    rw [authFind_append (strTrim u') (strTrim pw) auth _ hskipcond]
    simp only [authFind]
    rw [if_pos hcond]
    simp [mkNewUser]
  have h2 : ∀ p', strTrim p' ≠ "" → strTrim p' ≠ p →
      authenticate_user (auth ++ [mkNewUser u p nowIso true]) u' p'
        = (false, "Incorrect password") := by
    intro p' ha hb
    rw [hmain p' ha, if_neg (fun hh => hb hh.symm)]
  have hdis : (enable_disable_user (auth ++ [mkNewUser u p nowIso true]) u false).2
      = auth ++ [mkNewUser u p nowIso false] := by
    simp only [enable_disable_user]
    rw [setEnabledFirst_append u false auth _ husername rfl]
    rfl
  have hcondd : strLower (strTrim (mkNewUser u p nowIso false).username)
      = strLower (strTrim u') := by
    show strLower (strTrim u) = strLower (strTrim u')
    rw [hu, hu'eq]
  have h3 : ∀ p'', strTrim p'' ≠ "" →
      authenticate_user (auth ++ [mkNewUser u p nowIso false]) u' p''
        = (false, "User account is disabled") := by
    intro p'' hpw
    simp only [authenticate_user]
    rw [if_neg (not_or.mpr ⟨hu'0, hpw⟩)]
    rw [isEmptyAppendSingleton]
    rw [if_neg Bool.false_ne_true]
    rw [authFind_append (strTrim u') (strTrim p'') auth _ hskipcond]
    simp only [authFind]
    rw [if_pos hcondd]
    simp [mkNewUser]
  refine ⟨?_, ?_, ?_⟩
  · rw [hcreate2, hmain p (by rw [hp]; exact hp0), hp, if_pos rfl]
  · intro p' ha hb
    rw [hcreate2]
    exact h2 p' ha hb
  · intro p'' ha
    rw [hcreate2, hdis]
    exact h3 p'' ha

/-- Witness for C4 at a concrete input: user `alice`, password `pw`,
authenticated with the casing `ALICE`. -/
theorem create_auth_flow_witness :
    authenticate_user (create_user [] [] "alice" "pw" true "" "Basic" none "User" "c").2
        "ALICE" "pw" = (true, "Authentication successful") ∧
    authenticate_user (create_user [] [] "alice" "pw" true "" "Basic" none "User" "c").2
        "ALICE" "bad" = (false, "Incorrect password") ∧
    authenticate_user
        (enable_disable_user (create_user [] [] "alice" "pw" true "" "Basic" none "User" "c").2
          "alice" false).2 "ALICE" "pw" = (false, "User account is disabled") := by
  have h := create_auth_flow [] [] "alice" "pw" "c" (by decide) (by decide) (by decide)
    (by decide) (by simp)
  obtain ⟨-, h2⟩ := h
  obtain ⟨ha, hb, hc⟩ := h2 "ALICE" (by decide) (by decide)
  exact ⟨ha, hb "bad" (by decide) (by decide), hc "pw" (by decide)⟩

set_option maxRecDepth 8000 in
/-- C4 counterexample: with an existing user `bob` (password `secret`),
`create_user` accepts the case-insensitively colliding username `BOB` (its
duplicate check is case-sensitive), yet a subsequent `authenticate_user`
with the newly inserted pair — in exactly the inserted casing — matches the
stored `bob` first and fails with `Incorrect password`, so the claimed
property fails for this inserted pair. -/
theorem create_auth_flow_cex :
    (create_user [bobUser] [] "BOB" "pw2" true "" "Basic" none "User" "c").1
      = (true, "User created successfully") ∧
    authenticate_user (create_user [bobUser] [] "BOB" "pw2" true "" "Basic" none "User" "c").2
        "BOB" "pw2" = (false, "Incorrect password") := by decide

/-- C7 (amended): whenever the topic — after stripping whitespace and
removing the sanitised characters (the length cap is applied to the
sanitised text) — exceeds 200 characters, `generate_ai_post` returns the
validation-error string (which begins with the warning marker) instead of
post text, with no external completion call. -/
theorem generate_rejects_long_topic (completion : String → String → String)
    (topic purpose audience message tone_intensity language_style post_length
     formatting cta post_goal template_type visual_style : String)
    (h : 200 < strLen (sanitize topic)) :
    generate_ai_post completion topic purpose audience message tone_intensity language_style
        post_length formatting cta post_goal template_type visual_style
      = ((validation_error_msg "Topic cannot exceed 200 characters", ""), false) ∧
    strStarts (validation_error_msg "Topic cannot exceed 200 characters") "⚠️" = true := by
  have h0 := strTrim_ne_of_sanitize_long topic h
  have hmsg : ("Topic" ++ " cannot exceed " ++ toString 200 ++ " characters")
      = "Topic cannot exceed 200 characters" := by decide
  have hval : validate_topic topic = .error "Topic cannot exceed 200 characters" := by
    simp only [validate_topic, validate_input]
    rw [if_neg h0, if_pos h, hmsg]
  constructor
  · simp only [generate_ai_post, hval]
  · decide

set_option maxRecDepth 8000 in
/-- Witness for C7 at a concrete input: a topic of 250 `a` characters. -/
theorem generate_rejects_long_topic_witness :
    generate_ai_post completion0 topic250A "p" "a" "m" "Moderate" "Casual" "Short"
        "Paragraphs" "" "Educate" "professional" "photo_realistic"
      = ((validation_error_msg "Topic cannot exceed 200 characters", ""), false) := by
  exact (generate_rejects_long_topic completion0 topic250A "p" "a" "m" "Moderate" "Casual"
    "Short" "Paragraphs" "" "Educate" "professional" "photo_realistic" (by decide)).1

set_option maxRecDepth 8000 in
/-- C7 counterexample: this topic is 250 characters long (exceeding the
200-character cap), yet 60 of them are `<`, which sanitisation removes before
the length check; validation therefore passes, the external completion call
is performed, and ordinary post text is returned instead of a
validation-error string. -/
theorem generate_long_topic_cex :
    strLen topicCex = 250 ∧
    (generate_ai_post completion0 topicCex "p" "a" "m" "Moderate" "Casual" "Short"
        "Paragraphs" "" "Educate" "professional" "photo_realistic").2 = true ∧
    (generate_ai_post completion0 topicCex "p" "a" "m" "Moderate" "Casual" "Short"
        "Paragraphs" "" "Educate" "professional" "photo_realistic").1.1
      = "This is a generated post." := by
  refine ⟨by decide, ?_, ?_⟩ <;> rfl
